import Mathlib

/-!
Verification of the news pipeline (fetch → filter → analyze, with a cronjob
scheduler).  Each stage of `src/routers` is shallowly embedded: pure helper
functions become Lean functions; the HTTP endpoints become functions from the
outcomes of their external adapter calls (datastore responses, LLM responses,
extraction results) to a response plus the datastore effects they perform;
Python exceptions become an explicit `Except`.
-/

/- ## Python string primitives.
Lean's byte-indexed `String` operations do not reduce in the kernel, so the
Python `str` operations used by the code are modelled on the character list
(`String.data`).  Python `len` counts characters, as `List.length` does. -/

namespace Py

/-- `str.strip()`: drop leading and trailing whitespace. -/
def stripList (cs : List Char) : List Char :=
  ((cs.dropWhile Char.isWhitespace).reverse.dropWhile Char.isWhitespace).reverse

/-- `s.strip()` on strings. -/
def strip (s : String) : String := ⟨stripList s.data⟩

/-- `s.lower()` (ASCII case fold, as used on the relevance tier strings). -/
def lower (s : String) : String := ⟨s.data.map Char.toLower⟩

/-- Python truthiness of a string: non-empty. -/
def truthy (s : String) : Bool := !(s == "")

/-- Whether `pat` is a leading segment of `s` (helper for substring search). -/
def leadsList : List Char → List Char → Bool
  | [], _ => true
  | _ :: _, [] => false
  | p :: ps, c :: cs => p == c && leadsList ps cs

/-- Whether `pat` occurs inside `s` (Python `pat in s`). -/
def insideList (pat : List Char) : List Char → Bool
  | [] => pat.isEmpty
  | c :: cs => leadsList pat (c :: cs) || insideList pat cs

/-- Python `pat in s` on strings. -/
def containsSub (s pat : String) : Bool := insideList pat.data s.data

end Py

/- ## The Filter stage (`src/routers/filter.py`). -/

namespace NewsFilter

/-- The classification mapping the LLM adapter returns (`filter_news`): keys of
the allow-list may be absent (no default substitution), so every field is an
`Option`.  Only the fields the retention policy reads are carried; the other
allow-listed keys never influence control flow. -/
structure FilterMap where
  duplication : Option Bool
  is_news_content : Option Bool
  brazil_interest : Option Bool
  relevance : Option String
  deriving Repr, DecidableEq

/-- Membership of the relevance tier in `{"medium", "high", "viral"}`. -/
def relevanceAccepted (r : String) : Bool :=
  r == "medium" || r == "high" || r == "viral"

/-- `should_skip_insertion` (filter.py lines 781-790): the sequential
early-return checks, with the `dict.get` defaults of the source. -/
def should_skip_insertion (filters : FilterMap) : Bool × String :=
  if filters.duplication.getD false then
    (true, "duplicação detectada")
  else if !(filters.is_news_content.getD true) then
    (true, "conteúdo não é notícia")
  else if !(filters.brazil_interest.getD true) then
    (true, "baixo interesse para o Brasil")
  else if !(relevanceAccepted (filters.relevance.getD "")) then
    (true, "relevância insuficiente (" ++
      (match filters.relevance with | some r => r | none => "None") ++ ")")
  else
    (false, "")

/-- A row of the `news_extraction` table as `fetch_unused_news` reads it. -/
structure NewsRow where
  news_id : String
  title : String
  url : String
  image : String
  deriving Repr, DecidableEq

/-- The datastore response to the `fetch_unused_news` query (`used=eq.false`,
oldest first, limit 1): the row list on HTTP 200, or the failing status. -/
inductive FetchResp where
  | ok (rows : List NewsRow)
  | badStatus (code : Nat)
  deriving Repr, DecidableEq

/-- The outcome of the LLM classification call `filter_news`: the allow-listed
mapping, or the `ValueError("Erro na filtragem: ...")` it raises on any
adapter failure. -/
inductive LLMResult where
  | ok (filters : FilterMap)
  | exc (msg : String)
  deriving Repr, DecidableEq

/-- Result of the newspaper3k primary extraction method: `article.text`, or a
raised exception (swallowed by the inner `except: pass`). -/
inductive PrimaryRes where
  | text (t : String)
  | raised
  deriving Repr, DecidableEq

/-- Result of the fallback `httpx.get` + `trafilatura.extract` path: the
status code and `trafilatura.extract(response.text)` (`none` when that
returns `None`), or a raised exception (caught by the outer `except`). -/
inductive FallbackRes where
  | resp (status : Nat) (extracted : Option String)
  | raised
  deriving Repr, DecidableEq

/-- The trafilatura half of `extract_article_text` (filter.py lines 62-73):
accept text only on HTTP 200 when it is non-empty and strictly longer than
100 characters once stripped; otherwise the function returns `""`. -/
def fallbackText : FallbackRes → String
  | .resp status extracted =>
    if status = 200 then
      match extracted with
      | some t => if Py.truthy t && (Py.strip t).data.length > 100 then Py.strip t else ""
      | none => ""
    else ""
  | .raised => ""

/-- `extract_article_text` (filter.py lines 47-75): newspaper3k first, and the
trafilatura fallback when it raises or its stripped text is not strictly
longer than 100 characters; `""` when both fail. -/
def extract_article_text (primary : PrimaryRes) (fb : FallbackRes) : String :=
  match primary with
  | .text t =>
    if Py.truthy t && (Py.strip t).data.length > 100 then Py.strip t else fallbackText fb
  | .raised => fallbackText fb

/-- A Python exception as the endpoint's `except Exception` sees it:
`HTTPException(status, detail)` or `ValueError(msg)`. -/
inductive PyExc where
  | http (status : Nat) (detail : String)
  | value (msg : String)
  deriving Repr, DecidableEq

/-- `str(e)`: FastAPI's `HTTPException` prints as `"<status>: <detail>"`. -/
def excMsg : PyExc → String
  | .http status detail => Nat.repr status ++ ": " ++ detail
  | .value msg => msg

/-- A record posted to the long-lived `news` table by `insert_news_to_db`. -/
structure InsertedRow where
  title_en : String
  text_en : String
  news_id : String
  url : String
  image : String
  filters : FilterMap
  deriving Repr, DecidableEq

/-- The datastore effects one `/filter` call performs: rows posted to the
long-lived `news` table, and ids patched `used=true` in `news_extraction`. -/
structure FilterEffects where
  inserted : List InsertedRow
  used : List String
  deriving Repr, DecidableEq

/-- The JSON body of a successful `/filter` response. -/
structure FilterResponse where
  filtered : FilterMap
  title_en : String
  text_en : String
  news_id : String
  url : String
  image : String
  skipped : Bool
  skip_reason : Option String
  deriving Repr, DecidableEq

/-- The adapter outcomes one `/filter` invocation consumes.  `extractedText`
is the value `extract_article_text` produced for the item's URL (tie it to
`extract_article_text` to reason about extraction); `insertOk` is whether the
datastore POST of `insert_news_to_db` returns 200/201. -/
structure FilterWorld where
  fetchResp : FetchResp
  extractedText : String
  llm : LLMResult
  insertOk : Bool
  deriving Repr, DecidableEq

/-- The `except Exception` handler of `filter_endpoint` (filter.py lines
846-859): mark the selected item used when `news_id` is truthy, then map the
message to 404/400/400/500 by substring. -/
def filterHandler (news_id : Option String) (e : PyExc) :
    Except PyExc FilterResponse × FilterEffects :=
  let msg := excMsg e
  let usedL : List String :=
    match news_id with
    | some nid => if Py.truthy nid then [nid] else []
    | none => []
  let resp : PyExc :=
    if Py.containsSub msg "Nenhuma notícia disponível" then .http 404 msg
    else if Py.containsSub msg "Title e URL não podem estar vazios" then .http 400 msg
    else if Py.containsSub msg "Não foi possível extrair texto" then .http 400 msg
    else .http 500 ("Erro interno: " ++ msg)
  (.error resp, ⟨[], usedL⟩)

/-- `filter_endpoint` (filter.py lines 795-859) as a function of the adapter
outcomes, returning the HTTP result and the datastore effects.
`fetch_unused_news` raises 500 on a bad datastore status and 404 on an empty
result; both, and every later exception, land in `filterHandler`. -/
def filter_endpoint (w : FilterWorld) : Except PyExc FilterResponse × FilterEffects :=
  match w.fetchResp with
  | .badStatus _ => filterHandler none (.http 500 "Erro ao buscar notícia")
  | .ok [] => filterHandler none (.http 404 "Nenhuma notícia disponível")
  | .ok (nd :: _) =>
    if !(Py.truthy (Py.strip nd.title)) || !(Py.truthy (Py.strip nd.url)) then
      filterHandler (some nd.news_id) (.value "Title e URL não podem estar vazios")
    else if !(Py.truthy (Py.strip w.extractedText)) then
      filterHandler (some nd.news_id) (.value "Não foi possível extrair texto da URL")
    else
      match w.llm with
      | .exc m => filterHandler (some nd.news_id) (.value m)
      | .ok filters =>
        let sk := should_skip_insertion filters
        if sk.1 then
          (.ok ⟨filters, nd.title, w.extractedText, nd.news_id, nd.url, nd.image,
                true, some sk.2⟩,
           ⟨[], [nd.news_id]⟩)
        else if w.insertOk then
          (.ok ⟨filters, nd.title, w.extractedText, nd.news_id, nd.url, nd.image,
                false, none⟩,
           ⟨[⟨nd.title, w.extractedText, nd.news_id, nd.url, nd.image, filters⟩],
            [nd.news_id]⟩)
        else
          filterHandler (some nd.news_id) (.http 500 "Erro ao inserir notícia")

end NewsFilter

/- ## The cronjob scheduler (`src/routers/cronjob.py`). -/

namespace Cron

/-- Where a poller coroutine is suspended.  `start`: created by
`asyncio.create_task` but not yet run.  `atCall`: suspended at the `await`
that performs the stage HTTP call.  `atSleep`: suspended at `asyncio.sleep`.
Every stage invocation and every sleep is such a suspension point; code
between suspension points runs atomically under the cooperative scheduler. -/
inductive Pos where
  | start
  | atCall
  | atSleep
  deriving Repr, DecidableEq

/-- One asyncio task running a poller loop (`fetch_news`, `fetch_filter` or
`fetch_analyze`).  `cancelled` is set by `task.cancel()`; `done` once the
coroutine has finished. -/
structure TaskRec where
  id : Nat
  kind : String
  pos : Pos
  cancelled : Bool
  done : Bool
  deriving Repr, DecidableEq

/-- The module-level scheduler state: the `tasks` registry (stage name to
task id), the `stop_flags` dictionary, the pool of asyncio tasks that exist
in the process, and the next fresh task id. -/
structure CronState where
  tasks : List (String × Nat)
  stopFlags : List (String × Bool)
  pool : List TaskRec
  nextId : Nat
  deriving Repr, DecidableEq

/-- The two user-facing scheduler errors (both HTTP 400 in the source). -/
inductive CronErr where
  | alreadyRunning
  | nothingRunning
  deriving Repr, DecidableEq

/-- `start_cronjob` (cronjob.py lines 88-101): refuse when the registry is
non-empty, else reset the stop flags and create and register the three
pollers. -/
def start_cronjob (s : CronState) : Except CronErr CronState :=
  match s.tasks with
  | _ :: _ => .error .alreadyRunning
  | [] =>
    .ok { tasks := [("news", s.nextId), ("filter", s.nextId + 1), ("analyze", s.nextId + 2)]
          stopFlags := [("news", false), ("filter", false), ("analyze", false)]
          pool := s.pool ++
            [⟨s.nextId, "news", .start, false, false⟩,
             ⟨s.nextId + 1, "filter", .start, false, false⟩,
             ⟨s.nextId + 2, "analyze", .start, false, false⟩]
          nextId := s.nextId + 3 }

/-- `for t in tasks.values(): t.cancel()`. -/
def cancelTasks (pool : List TaskRec) (ids : List Nat) : List TaskRec :=
  pool.map fun t => if t.id ∈ ids then { t with cancelled := true } else t

/-- `stop_cronjob` (cronjob.py lines 103-119): refuse when the registry is
empty, else set every stop flag, cancel every registered task, and clear both
the registry and the stop flags before returning. -/
def stop_cronjob (s : CronState) : Except CronErr CronState :=
  match s.tasks with
  | [] => .error .nothingRunning
  | _ :: _ =>
    let _allTrue := s.stopFlags.map fun kv => (kv.1, true)
    .ok { tasks := []
          stopFlags := []
          pool := cancelTasks s.pool (s.tasks.map (·.2))
          nextId := s.nextId }

/-- `stop_flags.get(kind)`: `None` (falsy) when the key is absent — in
particular, after `stop_cronjob` has reset `stop_flags` to `{}`, every poller
reads a falsy flag and would keep looping but for its cancellation. -/
def flagOf (flags : List (String × Bool)) (kind : String) : Bool :=
  (flags.lookup kind).getD false

/-- Resume the task at its suspension point and run it (atomically) to its
next suspension point or to completion.  A cancelled task never runs user
code again: `CancelledError` is raised at the suspension point and none of
the pollers' `except Exception` clauses catches it, so the coroutine ends.
`retryNow` tells whether this iteration's branch is the filter poller's
immediate `continue` (no sleep); the second component counts the stage
invocations that begin during this step. -/
def resumeTask (flags : List (String × Bool)) (t : TaskRec) (retryNow : Bool) :
    TaskRec × Nat :=
  if t.done then (t, 0)
  else if t.cancelled then ({ t with done := true }, 0)
  else
    match t.pos with
    | .start =>
      if flagOf flags t.kind then ({ t with done := true }, 0)
      else ({ t with pos := .atCall }, 1)
    | .atSleep =>
      if flagOf flags t.kind then ({ t with done := true }, 0)
      else ({ t with pos := .atCall }, 1)
    | .atCall =>
      if t.kind == "filter" && retryNow then
        if flagOf flags t.kind then ({ t with done := true }, 0)
        else ({ t with pos := .atCall }, 1)
      else ({ t with pos := .atSleep }, 0)

/-- The state the cooperative scheduler interleaves: the task pool and the
(shared, read-only during polling) stop flags. -/
structure RunWorld where
  pool : List TaskRec
  flags : List (String × Bool)
  deriving Repr, DecidableEq

/-- One scheduling choice: wake task `i` with an arbitrary branch outcome. -/
def stepWorld (w : RunWorld) (i : Nat) (retryNow : Bool) : RunWorld × Nat :=
  match w.pool[i]? with
  | none => (w, 0)
  | some t =>
    let r := resumeTask w.flags t retryNow
    ({ w with pool := w.pool.set i r.1 }, r.2)

/-- Run a whole schedule, counting the stage invocations that begin. -/
def runSched (w : RunWorld) : List (Nat × Bool) → Nat
  | [] => 0
  | (i, b) :: rest =>
    let r := stepWorld w i b
    r.2 + runSched r.1 rest

/-- The world the pollers run in after a scheduler operation. -/
def runWorldOf (s : CronState) : RunWorld := ⟨s.pool, s.stopFlags⟩

/-- The parsed `filter` field of a 200 response as `fetch_filter` reads it
(`data.get("filter", {})`: each key read with a `dict.get` default). -/
structure PollFilterData where
  is_news_content : Option Bool
  relevance : Option String
  brazil_interest : Option Bool
  deriving Repr, DecidableEq

/-- One `/filter` call as the filter poller sees it: a response with its
status and optional `filter` field, or a raised exception. -/
inductive PollResp where
  | resp (status : Nat) (filterField : Option PollFilterData)
  | exc
  deriving Repr, DecidableEq

/-- What the poller does after one iteration's branch. -/
inductive IterAction where
  | retryNow
  | sleepSeconds (n : Nat)
  deriving Repr, DecidableEq

/-- The unmet-criteria test of `fetch_filter` (cronjob.py line 49), with the
source's `dict.get` defaults (`False`, `"low"`, `False`). -/
def criteriaUnmet (f : PollFilterData) : Bool :=
  !(f.is_news_content.getD false)
    || !((Py.lower (f.relevance.getD "low")) ∈ ["medium", "high", "viral"])
    || !(f.brazil_interest.getD false)

/-- One iteration of `fetch_filter` (cronjob.py lines 34-57): on a 200
response whose classification fails the criteria, `continue` immediately;
otherwise (criteria met, non-200 status, or exception) fall through to
`asyncio.sleep(120)`. -/
def fetch_filter_iteration : PollResp → IterAction
  | .resp status filterField =>
    if status = 200 then
      if criteriaUnmet (filterField.getD ⟨none, none, none⟩) then .retryNow
      else .sleepSeconds 120
    else .sleepSeconds 120
  | .exc => .sleepSeconds 120

/-- Modelled from the spec (§4.4, Filter poller): the condition under which
the claim says the loop repeats immediately — a successful stage result whose
classification criteria were not met (non-news, relevance below the accepted
tiers, or no locale interest).  Stated independently of
`fetch_filter_iteration` to compare the two. -/
def spec_retry_condition : PollResp → Bool
  | .resp status filterField =>
    let f := filterField.getD ⟨none, none, none⟩
    status = 200 &&
      (!(f.is_news_content.getD false)
        || !((Py.lower (f.relevance.getD "low")) ∈ ["medium", "high", "viral"])
        || !(f.brazil_interest.getD false))
  | .exc => false

end Cron

/- ## The Fetch stage (`src/routers/getnews.py`). -/

namespace GetNews

/-- One upstream news item as `get_news` assembles it (the fields other than
the external identifier play no role in deduplication). -/
structure Item where
  news_id : String
  title : String
  url : String
  deriving Repr, DecidableEq

/-- The batches `range(0, len(all_ids), 1000)` slices `all_ids` into, written
with explicit fuel so the recursion is structural (the fuel `l.length` always
suffices for a positive batch size). -/
def sliceChunks (n : Nat) : Nat → List String → List (List String)
  | _, [] => []
  | 0, _ => []
  | fuel + 1, l => l.take n :: sliceChunks n fuel (l.drop n)

/-- `all_ids` cut into batches of 1000 (getnews.py line 99). -/
def chunksOf (n : Nat) (l : List String) : List (List String) :=
  sliceChunks n l.length l

/-- The ids accumulated over the per-batch datastore queries
(getnews.py lines 99-105): for each batch, the `news_extraction` rows whose
`news_id` is in the batch. -/
def existingIdsFrom (db : List String) : List (List String) → List String
  | [] => []
  | c :: cs => db.filter (fun x => decide (x ∈ c)) ++ existingIdsFrom db cs

/-- The full `existing_ids` list of `get_news` for a given upstream id list
and datastore contents. -/
def existing_ids (allIds db : List String) : List String :=
  existingIdsFrom db (chunksOf 1000 allIds)

/-- `get_news` (getnews.py lines 96-111), from the point where `combined` is
assembled: batch-check which external ids the datastore already knows, keep
only the unseen items, and insert them.  Returns the inserted entries and the
datastore contents after the POST. -/
def get_news (combined : List Item) (db : List String) : List Item × List String :=
  let allIds := combined.map (·.news_id)
  let ex := existing_ids allIds db
  let new_entries := combined.filter fun it => decide (it.news_id ∉ ex)
  (new_entries, db ++ new_entries.map (·.news_id))

end GetNews

/- ## The Analyze stage (`src/routers/analyze.py`). -/

namespace Analyze

/-- A row of the long-lived `news` table as the analyze stage reads it. -/
structure NewsRow where
  id : Nat
  brazil_interest : Bool
  title_pt : Option String
  created_at : Nat
  title_en : String
  text_en : String
  deriving Repr, DecidableEq

/-- Stable insertion into a list ordered by `created_at` ascending. -/
def insertByCreated (r : NewsRow) : List NewsRow → List NewsRow
  | [] => [r]
  | x :: xs =>
    if r.created_at ≤ x.created_at then r :: x :: xs else x :: insertByCreated r xs

/-- Order rows by `created_at` ascending (the `order=created_at.asc` of the
datastore query). -/
def sortByCreated : List NewsRow → List NewsRow
  | [] => []
  | x :: xs => insertByCreated x (sortByCreated xs)

/-- The datastore-side query of `fetch_brazil_interest_news` (analyze.py lines
278-283): `brazil_interest=eq.true`, `title_pt=is.null`, ordered by
`created_at` ascending, `limit=1`. -/
def queryBrazilInterest (table : List NewsRow) : List NewsRow :=
  (sortByCreated (table.filter fun r => r.brazil_interest && r.title_pt == none)).take 1

/-- The datastore response to that query. -/
inductive SupaResp where
  | ok (rows : List NewsRow)
  | badStatus (code : Nat)
  deriving Repr, DecidableEq

/-- An HTTPException as FastAPI surfaces it. -/
structure HErr where
  status : Nat
  detail : String
  deriving Repr, DecidableEq

/-- `fetch_brazil_interest_news` (analyze.py lines 273-295).  The body raises
HTTPException 500 on a bad datastore status and HTTPException 404 when no row
matches; but the whole body sits in a `try` whose `except Exception` clause
catches both (FastAPI's `HTTPException` subclasses `Exception`) and re-raises
`HTTPException(500, "Erro Supabase: " + str(e))`. -/
def fetch_brazil_interest_news (resp : SupaResp) : Except HErr NewsRow :=
  let body : Except HErr NewsRow :=
    match resp with
    | .badStatus _ => .error ⟨500, "Erro ao buscar notícia"⟩
    | .ok [] =>
      .error ⟨404, "Nenhuma notícia com brazil_interest=true e title_pt vazio disponível"⟩
    | .ok (r :: _) => .ok r
  match body with
  | .ok r => .ok r
  | .error e =>
    .error ⟨500, "Erro Supabase: " ++ Nat.repr e.status ++ ": " ++ e.detail⟩

/- ### Birth/death year extraction and poster generation. -/

/-- Parse exactly four digits (the `\d{4}` groups of the year pattern). -/
def digit4 : List Char → Option (Nat × List Char)
  | a :: b :: c :: d :: rest =>
    if a.isDigit && b.isDigit && c.isDigit && d.isDigit then
      some (((a.toNat - 48) * 1000 + (b.toNat - 48) * 100 +
             (c.toNat - 48) * 10 + (d.toNat - 48)), rest)
    else none
  | _ => none

/-- After the birth-year group: the optional `(?:[–-](\d{4}))?` followed by
the literal `)`.  When a dash is present but not followed by four digits and
`)`, the optional group backtracks to empty and the `)` test fails at the
dash, so the whole attempt fails. -/
def matchYearsTail (b : Nat) : List Char → Option (Nat × Option Nat)
  | [] => none
  | c :: rest =>
    if c = '–' || c = '-' then
      match digit4 rest with
      | some (d, rest') =>
        match rest' with
        | ')' :: _ => some (b, some d)
        | _ => none
      | none => none
    else if c = ')' then some (b, none)
    else none

/-- The `(\d{4})` group and what follows it. -/
def matchBody (cs : List Char) : Option (Nat × Option Nat) :=
  match digit4 cs with
  | some (b, rest) => matchYearsTail b rest
  | none => none

/-- The `\s+` of `born\s+`: at least one whitespace character, consumed
greedily (giving characters back could never make the digit group match). -/
def skipWs1 : List Char → Option (List Char)
  | [] => none
  | c :: rest =>
    if c.isWhitespace then some (rest.dropWhile Char.isWhitespace) else none

/-- The pattern after the opening parenthesis: try the greedy `(?:born\s+)?`
with the word present first, and on failure of the whole continuation
backtrack to the empty alternative. -/
def matchAfterParen (cs : List Char) : Option (Nat × Option Nat) :=
  let withBorn : Option (Nat × Option Nat) :=
    match cs with
    | 'b' :: 'o' :: 'r' :: 'n' :: rest =>
      match skipWs1 rest with
      | some rest' => matchBody rest'
      | none => none
    | _ => none
  match withBorn with
  | some r => some r
  | none => matchBody cs

/-- `re.search` for `\((?:born\s+)?(\d{4})(?:[–-](\d{4}))?\)`: try every
start position left to right; only positions holding `(` can match. -/
def searchYears : List Char → Option (Nat × Option Nat)
  | [] => none
  | c :: rest =>
    if c = '(' then
      match matchAfterParen rest with
      | some r => some r
      | none => searchYears rest
    else searchYears rest

/-- `extract_birth_death_years` (analyze.py lines 340-354): on a match, the
death year group, **when absent, is replaced by 2025**; with no match (or an
empty description) both years are `None`. -/
def extract_birth_death_years (description : String) : Option Nat × Option Nat :=
  if description = "" then (none, none)
  else
    match searchYears description.data with
    | some (b, d) => (some b, some (d.getD 2025))
    | none => (none, none)

/-- The encyclopedia search response as `fetch_wikipedia_info` reads it:
`fail` covers a non-200 status, an empty `pages` list and a raised exception
(all return `None`); otherwise the first page's title, description and
thumbnail URL (`""` when the page has no thumbnail). -/
inductive WikiResp where
  | fail
  | pages (title description thumbUrl : String)
  deriving Repr, DecidableEq

/-- The normalized lookup result `fetch_wikipedia_info` builds. -/
structure WikiInfo where
  title : String
  birth_year : Option Nat
  death_year : Option Nat
  image_url : String
  deriving Repr, DecidableEq

/-- `str.replace(old, new)`: every non-overlapping occurrence, left to right
(structural fuel, one unit per character position, so `l.length` suffices). -/
def replaceAllAux (pat rep : List Char) : Nat → List Char → List Char
  | _, [] => []
  | 0, l => l
  | fuel + 1, c :: cs =>
    if Py.leadsList pat (c :: cs) then
      rep ++ replaceAllAux pat rep fuel ((c :: cs).drop pat.length)
    else c :: replaceAllAux pat rep fuel cs

/-- `str.split('/')` (the separator is a single character, so Python's split
keeps empty segments). -/
def splitOnSlash : List Char → List (List Char)
  | [] => [[]]
  | c :: cs =>
    if c = '/' then [] :: splitOnSlash cs
    else
      match splitOnSlash cs with
      | [] => [[c]]
      | p :: ps => (c :: p) :: ps

/-- `str.split(pat, 1)[1]`: the text after the first occurrence of `pat`. -/
def afterFirstL (pat : List Char) : List Char → Option (List Char)
  | [] => none
  | c :: cs =>
    if Py.leadsList pat (c :: cs) then some ((c :: cs).drop pat.length)
    else afterFirstL pat cs

/-- `'/'.join(parts)`. -/
def joinSlash : List (List Char) → List Char
  | [] => []
  | [p] => p
  | p :: q :: rest => p ++ '/' :: joinSlash (q :: rest)

/-- `fix_wikipedia_image_url` (analyze.py lines 322-338): rewrite
`//upload.wikimedia.org/.../thumb/.../NNNpx-file` thumbnail URLs to the
original-file URL; every other URL (and the empty string) passes through. -/
def fix_wikipedia_image_url (url : String) : String :=
  if url = "" || !(Py.leadsList "//upload.wikimedia.org".data url.data) then url
  else
    let cs := "https:".data ++ url.data
    let cs := replaceAllAux "/thumb/".data "/".data cs.length cs
    let parts := splitOnSlash cs
    if parts.length ≥ 2 then
      let filename := (parts.getLast?).getD []
      let filename :=
        if Py.insideList "px-".data filename then
          (afterFirstL "px-".data filename).getD filename
        else filename
      let base_parts := parts.take (parts.length - 2)
      ⟨joinSlash base_parts ++ '/' :: filename⟩
    else ⟨cs⟩

/-- `fetch_wikipedia_info` (analyze.py lines 356-392): on a usable search
response, assemble the first page's title, the years extracted from its
description, and its (fixed) thumbnail URL. -/
def fetch_wikipedia_info : WikiResp → Option WikiInfo
  | .fail => none
  | .pages title description thumbUrl =>
    let years := extract_birth_death_years description
    let image_url := if thumbUrl ≠ "" then fix_wikipedia_image_url thumbUrl else thumbUrl
    some ⟨title, years.1, years.2, image_url⟩

/-- Hex digit (upper case) for percent-encoding. -/
def hexDigit (n : Nat) : Char :=
  if n < 10 then Char.ofNat (48 + n) else Char.ofNat (55 + n)

/-- UTF-8 bytes of a code point. -/
def utf8Bytes (n : Nat) : List Nat :=
  if n < 128 then [n]
  else if n < 2048 then [192 + n / 64, 128 + n % 64]
  else if n < 65536 then [224 + n / 4096, 128 + (n / 64) % 64, 128 + n % 64]
  else [240 + n / 262144, 128 + (n / 4096) % 64, 128 + (n / 64) % 64, 128 + n % 64]

/-- The characters `urllib.parse.quote` leaves unencoded with the default
`safe='/'`: unreserved characters plus the slash. -/
def quoteSafe (c : Char) : Bool :=
  c.isAlphanum || c = '_' || c = '.' || c = '-' || c = '~' || c = '/'

/-- `urllib.parse.quote(s)` (default `safe='/'`). -/
def pyQuote (s : String) : String :=
  ⟨s.data.flatMap fun c =>
    if quoteSafe c then [c]
    else (utf8Bytes c.toNat).flatMap fun b => ['%', hexDigit (b / 16), hexDigit (b % 16)]⟩

/-- `generate_poster_url` (analyze.py lines 394-397): the memorial template. -/
def generate_poster_url (name : String) (birth death : Nat) (image_url : String) : String :=
  "https://habulaj-newapi-clone3.hf.space/cover/memoriam" ++
    "?image_url=" ++ pyQuote image_url ++ "&name=" ++ pyQuote name ++
    "&birth=" ++ Nat.repr birth ++ "&death=" ++ Nat.repr death

/-- `generate_news_poster_url` (analyze.py lines 399-403): the generic news
poster template. -/
def generate_news_poster_url (image_url headline : String) : String :=
  "https://habulaj-newapi-clone3.hf.space/cover/news" ++
    "?image_url=" ++ pyQuote image_url ++ "&headline=" ++ pyQuote headline

/-- The fields of the selected news row that `generate_poster_analysis`
reads. -/
structure PosterInput where
  image : String
  death_related : Option Bool
  entity_name : String
  title_en : String
  deriving Repr, DecidableEq

/-- The rewrite payload: on the HTTP path any of the three keys may be absent
from the parsed JSON, so each is an `Option`. -/
structure RWData where
  title : Option String
  subhead : Option String
  content : Option String
  deriving Repr, DecidableEq

/-- Which call path produced a rewrite result (the `method` field). -/
inductive RMethod where
  | direct
  | http
  deriving Repr, DecidableEq

/-- A rewrite result dictionary: `success`, the `data` payload when one was
parsed, and the path that produced it. -/
structure RWResult where
  success : Bool
  data : Option RWData
  method : RMethod
  deriving Repr, DecidableEq

/-- What `generate_poster_analysis` returns: the optional `wikipedia_info`
and `poster` fields of the result dictionary. -/
structure PosterAnalysis where
  wikipedia_info : Option WikiInfo
  poster : Option String
  deriving Repr, DecidableEq

/-- Python truthiness of `rewritten_result["data"].get("title")` combined
with the surrounding `success`/`data` guards (analyze.py lines 433-438). -/
def rewrittenTitle : Option RWResult → Option String
  | some r =>
    if r.success then
      match r.data with
      | some d =>
        match d.title with
        | some t => if t ≠ "" then some t else none
        | none => none
      | none => none
    else none
  | none => none

/-- `generate_poster_analysis` (analyze.py lines 405-447): for a death-related
item with a named entity, look the entity up; emit the memorial poster only
when both year fields are truthy (the memorial URL always uses the lookup's
own image field, because `wikipedia_info.get("image_url", image_url)` only
falls back when the key is missing, and it never is).  When no memorial
poster was emitted and the item has an image, emit the generic news poster,
headlined by the successful rewrite's non-empty title if any, else the
original `title_en`. -/
def generate_poster_analysis (nd : PosterInput) (wresp : WikiResp)
    (rewritten : Option RWResult) : PosterAnalysis :=
  let step1 : Option WikiInfo × Option String :=
    if nd.death_related == some true && nd.entity_name ≠ "" then
      match fetch_wikipedia_info wresp with
      | some info =>
        (some info,
          if info.death_year.getD 0 ≠ 0 && info.birth_year.getD 0 ≠ 0 then
            some (generate_poster_url info.title (info.birth_year.getD 0)
              (info.death_year.getD 0) info.image_url)
          else none)
      | none => (none, none)
    else (none, none)
  match step1 with
  | (winfo, some p) => ⟨winfo, some p⟩
  | (winfo, none) =>
    if nd.image ≠ "" then
      let headline := (rewrittenTitle rewritten).getD nd.title_en
      ⟨winfo, some (generate_news_poster_url nd.image headline)⟩
    else ⟨winfo, none⟩

/- ### The rewrite operation (direct path with HTTP fallback). -/

/-- The direct in-process call `inference_module.rewrite_news`: either it
raises, or it returns an object with the three string attributes. -/
inductive DirectOutcome where
  | raised
  | ok (title subhead content : String)
  deriving Repr, DecidableEq

/-- One HTTP call to the rewrite API: raised/timeout, or a response with its
status and, on status 200, the parsed JSON body (`none` when parsing fails). -/
inductive HttpOutcome where
  | raised
  | timeout
  | resp (status : Nat) (body : Option RWData)
  deriving Repr, DecidableEq

/-- `rewrite_article_http` (analyze.py lines 168-258): success exactly on a
200 response whose JSON parses and **contains** all three required keys — the
values are not checked for blankness on this path. -/
def rewrite_article_http (h : HttpOutcome) : RWResult :=
  match h with
  | .raised => ⟨false, none, .http⟩
  | .timeout => ⟨false, none, .http⟩
  | .resp status body =>
    if status = 200 then
      match body with
      | some d =>
        if d.title.isSome && d.subhead.isSome && d.content.isSome then
          ⟨true, some d, .http⟩
        else ⟨false, some d, .http⟩
      | none => ⟨false, none, .http⟩
    else ⟨false, none, .http⟩

/-- The validation of the direct path (analyze.py lines 140-161): all three
fields present (they always are on this path) and non-blank after strip. -/
def directComplete : DirectOutcome → Bool
  | .raised => false
  | .ok t s c =>
    Py.truthy (Py.strip t) && Py.truthy (Py.strip s) && Py.truthy (Py.strip c)

/-- `rewrite_article_direct` (analyze.py lines 114-166): fall through to the
HTTP path when the inference module failed to load or the direct call raises;
otherwise validate the three fields for non-blankness. -/
def rewrite_article_direct (moduleLoaded : Bool) (d : DirectOutcome)
    (h : HttpOutcome) : RWResult :=
  if !moduleLoaded then rewrite_article_http h
  else
    match d with
    | .raised => rewrite_article_http h
    | .ok t s c =>
      if directComplete (.ok t s c) then
        ⟨true, some ⟨some t, some s, some c⟩, .direct⟩
      else ⟨false, some ⟨some t, some s, some c⟩, .direct⟩

/-- `rewrite_article` (analyze.py lines 260-271): try the direct path; when
that returned an unsuccessful result that still came from the direct call
(an incomplete direct result), retry over HTTP.  (The `not result` guard of
the source can never fire: both paths always return a dictionary.) -/
def rewrite_article (moduleLoaded : Bool) (d : DirectOutcome) (h : HttpOutcome) :
    RWResult :=
  let r := rewrite_article_direct moduleLoaded d h
  if !r.success && r.method == .direct then rewrite_article_http h else r

end Analyze

/- ## Remaining definitions used by the proofs. -/

namespace Cron

/-- Every task of the pool is cancelled or already finished — the state
`stop_cronjob` leaves the process in (given that the registry covered the
live tasks). -/
def allStopped (w : RunWorld) : Prop :=
  ∀ t ∈ w.pool, t.cancelled = true ∨ t.done = true

end Cron

/- ## Helper lemmas. -/

theorem relevanceAccepted_iff (r : String) :
    NewsFilter.relevanceAccepted r = true ↔ (r = "medium" ∨ r = "high" ∨ r = "viral") := by
  simp [NewsFilter.relevanceAccepted, or_assoc]

/-- `Py.truthy s = true` is `s ≠ ""`. -/
theorem truthy_iff (s : String) : Py.truthy s = true ↔ s ≠ "" := by
  simp [Py.truthy]

/- ## Claim C1: the Filter retention policy and the skip path's effects. -/

/-- C1.  For every classification mapping, `should_skip_insertion` decides
skip exactly when the duplication flag is set, the item is not news content,
locale interest is absent, or the relevance tier is outside
`{medium, high, viral}` (each read with its source default); and whenever the
policy says skip, `filter_endpoint` marks the selected item used, inserts
nothing into the long-lived `news` table, and answers with `skipped = true`. -/
theorem c1_filter_skip_policy :
    (∀ f : NewsFilter.FilterMap,
      (NewsFilter.should_skip_insertion f).1 = true ↔
        (f.duplication.getD false = true ∨
         f.is_news_content.getD true = false ∨
         f.brazil_interest.getD true = false ∨
         f.relevance.getD "" ∉ (["medium", "high", "viral"] : List String))) ∧
    (∀ (w : NewsFilter.FilterWorld) (nd : NewsFilter.NewsRow)
       (rest : List NewsFilter.NewsRow) (f : NewsFilter.FilterMap),
      w.fetchResp = .ok (nd :: rest) →
      Py.truthy (Py.strip nd.title) = true →
      Py.truthy (Py.strip nd.url) = true →
      Py.truthy (Py.strip w.extractedText) = true →
      w.llm = .ok f →
      (NewsFilter.should_skip_insertion f).1 = true →
      (NewsFilter.filter_endpoint w).2.inserted = [] ∧
      nd.news_id ∈ (NewsFilter.filter_endpoint w).2.used ∧
      (NewsFilter.filter_endpoint w).1 =
        .ok ⟨f, nd.title, w.extractedText, nd.news_id, nd.url, nd.image, true,
             some (NewsFilter.should_skip_insertion f).2⟩) := by
  constructor
  · intro f
    by_cases hR : f.relevance.getD "" ∈ (["medium", "high", "viral"] : List String)
    · have hr' : NewsFilter.relevanceAccepted (f.relevance.getD "") = true :=
        (relevanceAccepted_iff _).mpr (by simpa using hR)
      cases hD : f.duplication.getD false <;>
        cases hN : f.is_news_content.getD true <;>
          cases hB : f.brazil_interest.getD true <;>
            simp [NewsFilter.should_skip_insertion, hD, hN, hB, hr', hR]
    · have hr' : NewsFilter.relevanceAccepted (f.relevance.getD "") = false := by
        cases hc : NewsFilter.relevanceAccepted (f.relevance.getD "")
        · rfl
        · exact absurd (by simpa using (relevanceAccepted_iff _).mp hc) hR
      cases hD : f.duplication.getD false <;>
        cases hN : f.is_news_content.getD true <;>
          cases hB : f.brazil_interest.getD true <;>
            simp [NewsFilter.should_skip_insertion, hD, hN, hB, hr', hR]
  · intro w nd rest f hfetch ht hu hx hllm hskip
    unfold NewsFilter.filter_endpoint
    rw [hfetch, hllm]
    simp [ht, hu, hx, hskip]

/-- Witness for C1 at a concrete world: an item classified `relevance="low"`
(news content, locale interest, no duplication) is skipped, marked used, and
not inserted. -/
theorem c1_filter_skip_policy_witness :
    (NewsFilter.filter_endpoint
        ⟨.ok [⟨"id1", "Star dies at 79", "https://u", "img"⟩], "body text",
         .ok ⟨some false, some true, some true, some "low"⟩, true⟩).2.inserted = [] ∧
    "id1" ∈ (NewsFilter.filter_endpoint
        ⟨.ok [⟨"id1", "Star dies at 79", "https://u", "img"⟩], "body text",
         .ok ⟨some false, some true, some true, some "low"⟩, true⟩).2.used ∧
    (NewsFilter.filter_endpoint
        ⟨.ok [⟨"id1", "Star dies at 79", "https://u", "img"⟩], "body text",
         .ok ⟨some false, some true, some true, some "low"⟩, true⟩).1 =
      .ok ⟨⟨some false, some true, some true, some "low"⟩, "Star dies at 79",
           "body text", "id1", "https://u", "img", true,
           some (NewsFilter.should_skip_insertion
             ⟨some false, some true, some true, some "low"⟩).2⟩ :=
  c1_filter_skip_policy.2
    ⟨.ok [⟨"id1", "Star dies at 79", "https://u", "img"⟩], "body text",
     .ok ⟨some false, some true, some true, some "low"⟩, true⟩
    ⟨"id1", "Star dies at 79", "https://u", "img"⟩ [] _
    rfl (by decide) (by decide) (by decide) rfl (by decide)

/- ## Claim C2: start_all / stop_all semantics. -/

/-- C2.  `start_cronjob` fails with the already-running error whenever any
poller is registered (hence a second call after a success always fails);
`stop_cronjob` fails with the nothing-running error exactly when the registry
is empty; and a successful stop cancels every registered task and clears the
registry (and the stop flags) before returning. -/
theorem c2_scheduler_start_stop :
    (∀ s : Cron.CronState, s.tasks ≠ [] →
      Cron.start_cronjob s = .error .alreadyRunning) ∧
    (∀ s s' : Cron.CronState, Cron.start_cronjob s = .ok s' →
      Cron.start_cronjob s' = .error .alreadyRunning) ∧
    (∀ s : Cron.CronState, s.tasks = [] →
      Cron.stop_cronjob s = .error .nothingRunning) ∧
    (∀ s s' : Cron.CronState, Cron.stop_cronjob s = .ok s' →
      s'.tasks = [] ∧ s'.stopFlags = [] ∧
      ∀ t ∈ s'.pool, t.id ∈ s.tasks.map Prod.snd → t.cancelled = true) := by
  refine ⟨?_, ?_, ?_, ?_⟩
  · rintro ⟨tasks, flags, pool, nid⟩ h
    cases tasks with
    | nil => exact absurd rfl h
    | cons a l => rfl
  · rintro ⟨tasks, flags, pool, nid⟩ s' h
    cases tasks with
    | nil =>
      cases h
      rfl
    | cons a l => exact absurd h (by simp [Cron.start_cronjob])
  · rintro ⟨tasks, flags, pool, nid⟩ h
    cases tasks with
    | nil => rfl
    | cons a l => exact absurd h (by simp)
  · rintro ⟨tasks, flags, pool, nid⟩ s' h
    cases tasks with
    | nil => exact absurd h (by simp [Cron.stop_cronjob])
    | cons a l =>
      cases h
      refine ⟨rfl, rfl, ?_⟩
      intro t ht hmem
      unfold Cron.cancelTasks at ht
      rw [List.mem_map] at ht
      obtain ⟨orig, -, rfl⟩ := ht
      dsimp only at hmem ⊢
      by_cases hid : orig.id ∈ ((a :: l).map Prod.snd)
      · rw [if_pos hid]
      · rw [if_neg hid] at hmem ⊢
        exact absurd hmem hid

/-- Witness for C2: the state `start_cronjob` builds from an empty registry
refuses a second start; stopping an empty registry fails; and stopping that
state clears the registry and cancels all three created tasks. -/
theorem c2_scheduler_start_stop_witness :
    Cron.start_cronjob ⟨[("news", 0), ("filter", 1), ("analyze", 2)],
        [("news", false), ("filter", false), ("analyze", false)],
        [⟨0, "news", .start, false, false⟩, ⟨1, "filter", .start, false, false⟩,
         ⟨2, "analyze", .start, false, false⟩], 3⟩ = .error .alreadyRunning ∧
    Cron.stop_cronjob ⟨[], [], [], 0⟩ = .error .nothingRunning ∧
    Cron.stop_cronjob ⟨[("news", 0), ("filter", 1), ("analyze", 2)],
        [("news", false), ("filter", false), ("analyze", false)],
        [⟨0, "news", .start, false, false⟩, ⟨1, "filter", .start, false, false⟩,
         ⟨2, "analyze", .start, false, false⟩], 3⟩ =
      .ok ⟨[], [],
        [⟨0, "news", .start, true, false⟩, ⟨1, "filter", .start, true, false⟩,
         ⟨2, "analyze", .start, true, false⟩], 3⟩ := by
  refine ⟨c2_scheduler_start_stop.1 _ (by decide),
    c2_scheduler_start_stop.2.2.1 _ rfl, ?_⟩
  rfl

/- ## Claim C3: the Analyze selection and its missing-work outcome. -/

/-- C3 (the failing input evaluated).  When no row matches the
`brazil_interest=true` / `title_pt is null` predicate, the body's
`HTTPException(404, ...)` is caught by the surrounding `except Exception`
clause and re-raised as a generic 500, so the caller sees an internal fault
whose detail merely quotes the 404, not a NotFound outcome. -/
theorem c3_analyze_notfound_shadowed :
    Analyze.fetch_brazil_interest_news (.ok (Analyze.queryBrazilInterest [])) =
      .error ⟨500,
        "Erro Supabase: 404: Nenhuma notícia com brazil_interest=true e title_pt vazio disponível"⟩ :=
  rfl

/- ## Claim C4: poster enrichment for death-related items. -/

/-- When the description matches the year pattern with no death-year group,
`extract_birth_death_years` substitutes 2025 for the missing death year. -/
theorem extract_years_no_death (d : String) (b : Nat)
    (h : Analyze.searchYears d.data = some (b, none)) :
    Analyze.extract_birth_death_years d = (some b, some 2025) := by
  have hne : ¬(d = "") := by
    rintro rfl
    simp [Analyze.searchYears] at h
  unfold Analyze.extract_birth_death_years
  rw [if_neg hne, h]
  rfl

/-- When the description does not match the year pattern at all, both years
are `None`. -/
theorem extract_years_none (d : String)
    (h : Analyze.searchYears d.data = none) :
    Analyze.extract_birth_death_years d = (none, none) := by
  unfold Analyze.extract_birth_death_years
  by_cases hne : d = ""
  · rw [if_pos hne]
  · rw [if_neg hne, h]

/-- C4 counterexample.  A death-related item with entity "John Doe", no item
image, and an encyclopedia description carrying only a birth year —
`"American actor (born 1950)"` — yields a memorial poster URL (with the
substituted death year 2025), while the claim says no poster field at all
would be emitted. -/
theorem c4_memorial_emitted_without_death_year :
    (Analyze.generate_poster_analysis ⟨"", some true, "John Doe", "T"⟩
        (.pages "John Doe" "American actor (born 1950)" "") none).poster =
      some (Analyze.generate_poster_url "John Doe" 1950 2025 "") ∧
    (Analyze.generate_poster_analysis ⟨"", some true, "John Doe", "T"⟩
        (.pages "John Doe" "American actor (born 1950)" "") none).poster ≠ none := by
  exact ⟨rfl, by decide⟩

/-- C4 as amended.  With only a birth year resolved (no death-year group) the
death year defaults to 2025, so for a death-related item with a named entity
and a nonzero birth year the memorial poster IS emitted, built from the
lookup's canonical title and image field; no poster at all is emitted only
when no memorial poster was produced (here: no year pattern at all) and the
item has no usable image; otherwise the generic news poster is emitted,
headlined by the successful rewrite's non-empty title when available, else
the original title. -/
theorem c4_poster_policy :
    (∀ (d : String) (b : Nat), Analyze.searchYears d.data = some (b, none) →
      Analyze.extract_birth_death_years d = (some b, some 2025)) ∧
    (∀ (nd : Analyze.PosterInput) (t d th : String) (rw : Option Analyze.RWResult)
       (b : Nat),
      nd.death_related = some true → nd.entity_name ≠ "" → b ≠ 0 →
      Analyze.searchYears d.data = some (b, none) →
      ∃ info, Analyze.fetch_wikipedia_info (.pages t d th) = some info ∧
        info.birth_year = some b ∧ info.death_year = some 2025 ∧
        (Analyze.generate_poster_analysis nd (.pages t d th) rw).poster =
          some (Analyze.generate_poster_url t b 2025 info.image_url)) ∧
    (∀ (nd : Analyze.PosterInput) (t d th : String) (rw : Option Analyze.RWResult),
      Analyze.searchYears d.data = none → nd.image = "" →
      (Analyze.generate_poster_analysis nd (.pages t d th) rw).poster = none) ∧
    (∀ (nd : Analyze.PosterInput) (t d th : String) (rw : Option Analyze.RWResult),
      Analyze.searchYears d.data = none → nd.image ≠ "" →
      (Analyze.generate_poster_analysis nd (.pages t d th) rw).poster =
        some (Analyze.generate_news_poster_url nd.image
          ((Analyze.rewrittenTitle rw).getD nd.title_en))) := by
  refine ⟨extract_years_no_death, ?_, ?_, ?_⟩
  · intro nd t d th rw b hdr hen hb0 h
    have hx := extract_years_no_death d b h
    refine ⟨⟨t, some b, some 2025,
      if th ≠ "" then Analyze.fix_wikipedia_image_url th else th⟩, ?_, rfl, rfl, ?_⟩
    · simp only [Analyze.fetch_wikipedia_info, hx]
    · unfold Analyze.generate_poster_analysis
      simp only [Analyze.fetch_wikipedia_info, hx, hdr, hen]
      simp [hen, hb0]
  · intro nd t d th rw h himg
    have hx := extract_years_none d h
    unfold Analyze.generate_poster_analysis
    simp only [Analyze.fetch_wikipedia_info, hx]
    by_cases hdr' : nd.death_related = some true <;>
      by_cases hen' : nd.entity_name = "" <;>
        simp [hdr', hen', himg]
  · intro nd t d th rw h himg
    have hx := extract_years_none d h
    unfold Analyze.generate_poster_analysis
    simp only [Analyze.fetch_wikipedia_info, hx]
    by_cases hdr' : nd.death_related = some true <;>
      by_cases hen' : nd.entity_name = "" <;>
        simp [hdr', hen', himg]

/- ## Claim C5: the rewrite fallback and its success criterion. -/

/-- Every result of the HTTP path is tagged `method = http`. -/
theorem rewrite_http_method (h : Analyze.HttpOutcome) :
    (Analyze.rewrite_article_http h).method = .http := by
  cases h with
  | raised => rfl
  | timeout => rfl
  | resp st body =>
    unfold Analyze.rewrite_article_http
    by_cases hs : st = 200
    · subst hs
      cases body with
      | none => rfl
      | some dd =>
        by_cases hk : (dd.title.isSome && dd.subhead.isSome && dd.content.isSome) = true
        · simp [hk]
        · simp [hk]
    · simp [hs]

/-- C5 counterexample.  With the direct path raising and the HTTP path
answering 200 with `{"title": "", "subhead": "x", "content": "y"}` — all
three keys present but the title blank — the stage reports success, so
"success only when all three fields are non-blank" fails on the HTTP path. -/
theorem c5_http_success_despite_blank_field :
    (Analyze.rewrite_article true .raised
        (.resp 200 (some ⟨some "", some "x", some "y"⟩))).success = true ∧
    (Analyze.rewrite_article true .raised
        (.resp 200 (some ⟨some "", some "x", some "y"⟩))).data =
      some ⟨some "", some "x", some "y"⟩ ∧
    (Analyze.rewrite_article true .raised
        (.resp 200 (some ⟨some "", some "x", some "y"⟩))).method = .http := by
  decide

/-- C5 as amended.  The stage falls back to the HTTP path exactly when the
direct module is unavailable, the direct call raises, or the direct result is
incomplete (some field blank after trimming) — and in those cases the overall
result is the HTTP path's result verbatim.  A complete direct result is
returned as a direct success.  But the two paths' success criteria differ: the
HTTP path succeeds exactly on a 200 response whose JSON parses with all three
keys present, with no non-blankness check. -/
theorem c5_rewrite_fallback_and_success :
    (∀ (ml : Bool) (d : Analyze.DirectOutcome) (h : Analyze.HttpOutcome),
      ((Analyze.rewrite_article ml d h).method = .http ↔
        (ml = false ∨ Analyze.directComplete d = false)) ∧
      ((ml = false ∨ Analyze.directComplete d = false) →
        Analyze.rewrite_article ml d h = Analyze.rewrite_article_http h)) ∧
    (∀ (t s c : String) (h : Analyze.HttpOutcome),
      Analyze.directComplete (.ok t s c) = true →
      Analyze.rewrite_article true (.ok t s c) h =
        ⟨true, some ⟨some t, some s, some c⟩, .direct⟩) ∧
    (∀ (st : Nat) (body : Option Analyze.RWData),
      (Analyze.rewrite_article_http (.resp st body)).success =
        (decide (st = 200) &&
          match body with
          | some dd => dd.title.isSome && dd.subhead.isSome && dd.content.isSome
          | none => false)) ∧
    ((Analyze.rewrite_article_http .raised).success = false ∧
     (Analyze.rewrite_article_http .timeout).success = false) := by
  refine ⟨?_, ?_, ?_, rfl, rfl⟩
  · intro ml d h
    cases ml with
    | false =>
      constructor
      · simp [Analyze.rewrite_article, Analyze.rewrite_article_direct,
          rewrite_http_method h]
      · intro _
        simp [Analyze.rewrite_article, Analyze.rewrite_article_direct,
          rewrite_http_method h]
    | true =>
      cases d with
      | raised =>
        constructor
        · simp [Analyze.rewrite_article, Analyze.rewrite_article_direct,
            Analyze.directComplete, rewrite_http_method h]
        · intro _
          simp [Analyze.rewrite_article, Analyze.rewrite_article_direct,
            rewrite_http_method h]
      | ok t s c =>
        by_cases hdc : Analyze.directComplete (.ok t s c) = true
        · constructor
          · simp [Analyze.rewrite_article, Analyze.rewrite_article_direct, hdc]
          · rintro (hml | hdc')
            · exact absurd hml (by simp)
            · exact absurd hdc' (by simp [hdc])
        · constructor
          · simp [Analyze.rewrite_article, Analyze.rewrite_article_direct,
              Bool.eq_false_iff.mpr hdc, rewrite_http_method h]
          · intro _
            simp [Analyze.rewrite_article, Analyze.rewrite_article_direct,
              Bool.eq_false_iff.mpr hdc]
  · intro t s c h hdc
    simp [Analyze.rewrite_article, Analyze.rewrite_article_direct, hdc]
  · intro st body
    unfold Analyze.rewrite_article_http
    by_cases hs : st = 200
    · subst hs
      cases body with
      | none => rfl
      | some dd =>
        by_cases hk : (dd.title.isSome && dd.subhead.isSome && dd.content.isSome) = true
        · simp [hk]
        · simp [hk, Bool.eq_false_iff.mpr hk]
    · cases body <;> simp [hs]

/- ## Claim C6: Fetch inserts nothing on an unchanged second run. -/

/-- Every element of the id list lands in one of its batches (the fuel
`l.length` always suffices when the batch size is positive). -/
theorem mem_sliceChunks (n : Nat) (hn : 0 < n) :
    ∀ (fuel : Nat) (l : List String) (x : String), l.length ≤ fuel → x ∈ l →
      ∃ c ∈ GetNews.sliceChunks n fuel l, x ∈ c := by
  intro fuel
  induction fuel with
  | zero =>
    intro l x hlen hx
    have : l = [] := List.length_eq_zero.mp (Nat.le_zero.mp hlen)
    subst this
    simp at hx
  | succ f ih =>
    intro l x hlen hx
    cases l with
    | nil => simp at hx
    | cons a as =>
      by_cases hmem : x ∈ (a :: as).take n
      · refine ⟨(a :: as).take n, ?_, hmem⟩
        show (a :: as).take n ∈ (a :: as).take n :: GetNews.sliceChunks n f ((a :: as).drop n)
        exact List.mem_cons_self _ _
      · have hdrop : x ∈ (a :: as).drop n := by
          have hsplit := List.take_append_drop n (a :: as)
          rw [← hsplit] at hx
          rcases List.mem_append.mp hx with h | h
          · exact absurd h hmem
          · exact h
        have hlen' : ((a :: as).drop n).length ≤ f := by
          rw [List.length_drop]
          have : (a :: as).length ≤ f + 1 := hlen
          simp only [List.length_cons] at this ⊢
          omega
        obtain ⟨c, hc, hxc⟩ := ih ((a :: as).drop n) x hlen' hdrop
        refine ⟨c, ?_, hxc⟩
        show c ∈ (a :: as).take n :: GetNews.sliceChunks n f ((a :: as).drop n)
        exact List.mem_cons_of_mem _ hc

/-- Every batch is made of elements of the original id list. -/
theorem sliceChunks_subset (n : Nat) :
    ∀ (fuel : Nat) (l c : List String), c ∈ GetNews.sliceChunks n fuel l →
      ∀ x ∈ c, x ∈ l := by
  intro fuel
  induction fuel with
  | zero =>
    intro l c hc
    cases l <;> simp [GetNews.sliceChunks] at hc
  | succ f ih =>
    intro l c hc x hx
    cases l with
    | nil => simp [GetNews.sliceChunks] at hc
    | cons a as =>
      have hc' : c ∈ (a :: as).take n :: GetNews.sliceChunks n f ((a :: as).drop n) := hc
      rcases List.mem_cons.mp hc' with rfl | htail
      · exact List.take_subset _ _ hx
      · exact List.drop_subset _ _ (ih _ _ htail x hx)

/-- Membership in the accumulated `existing_ids` of a batch list. -/
theorem mem_existingIdsFrom (db : List String) (cs : List (List String)) (x : String) :
    x ∈ GetNews.existingIdsFrom db cs ↔ ∃ c ∈ cs, x ∈ db ∧ x ∈ c := by
  induction cs with
  | nil => simp [GetNews.existingIdsFrom]
  | cons c cs ih =>
    simp only [GetNews.existingIdsFrom, List.mem_append, List.mem_filter,
      decide_eq_true_eq, ih, List.mem_cons]
    constructor
    · rintro (⟨hdb, hc⟩ | ⟨c', hc', hdb, hxc⟩)
      · exact ⟨c, Or.inl rfl, hdb, hc⟩
      · exact ⟨c', Or.inr hc', hdb, hxc⟩
    · rintro ⟨c', hc' | hc', hdb, hxc⟩
      · subst hc'
        exact Or.inl ⟨hdb, hxc⟩
      · exact Or.inr ⟨c', hc', hdb, hxc⟩

/-- `x` is reported as existing exactly when the datastore knows it and it is
one of the queried ids. -/
theorem mem_existing_ids (allIds db : List String) (x : String) :
    x ∈ GetNews.existing_ids allIds db ↔ x ∈ db ∧ x ∈ allIds := by
  unfold GetNews.existing_ids GetNews.chunksOf
  rw [mem_existingIdsFrom]
  constructor
  · rintro ⟨c, hc, hdb, hxc⟩
    exact ⟨hdb, sliceChunks_subset 1000 allIds.length allIds c hc x hxc⟩
  · rintro ⟨hdb, hids⟩
    obtain ⟨c, hc, hxc⟩ :=
      mem_sliceChunks 1000 (by omega) allIds.length allIds x (le_refl _) hids
    exact ⟨c, hc, hdb, hxc⟩

/-- C6.  Running Fetch a second time against an unchanged upstream item list
inserts nothing: after the first run every upstream external id is known to
the datastore, so the batch-checked dedup filters every item out. -/
theorem c6_fetch_idempotent (combined : List GetNews.Item) (db : List String) :
    (GetNews.get_news combined ((GetNews.get_news combined db).2)).1 = [] := by
  unfold GetNews.get_news
  dsimp only
  rw [List.filter_eq_nil_iff]
  intro it hit
  simp only [decide_eq_true_eq, Decidable.not_not]
  rw [mem_existing_ids]
  refine ⟨?_, List.mem_map_of_mem _ hit⟩
  by_cases hx1 : it.news_id ∈ GetNews.existing_ids (combined.map (·.news_id)) db
  · exact List.mem_append_left _ ((mem_existing_ids _ db it.news_id).mp hx1).1
  · refine List.mem_append_right _ ?_
    refine List.mem_map_of_mem _ ?_
    rw [List.mem_filter]
    exact ⟨hit, by simpa using hx1⟩

/-- Witness for C6 (the theorem has no hypotheses; this instantiates it on a
concrete upstream list and datastore): the second run inserts nothing. -/
theorem c6_fetch_idempotent_witness :
    (GetNews.get_news [⟨"n1", "t1", "u1"⟩, ⟨"n2", "t2", "u2"⟩]
      ((GetNews.get_news [⟨"n1", "t1", "u1"⟩, ⟨"n2", "t2", "u2"⟩] ["n1"]).2)).1 = [] :=
  c6_fetch_idempotent [⟨"n1", "t1", "u1"⟩, ⟨"n2", "t2", "u2"⟩] ["n1"]

/- ## Claim C7: the Filter poller's immediate-retry branch. -/

/-- C7.  One filter-poller iteration continues immediately exactly when the
stage call returned 200 with unmet classification criteria (per the
spec-side condition), and sleeps 120 seconds in every other case — criteria
met, non-200 status, or a raised exception. -/
theorem c7_filter_poller_immediate_retry (r : Cron.PollResp) :
    Cron.fetch_filter_iteration r =
      (if Cron.spec_retry_condition r then .retryNow else .sleepSeconds 120) := by
  cases r with
  | exc => rfl
  | resp status filterField =>
    by_cases hs : status = 200
    · subst hs
      by_cases hc : Cron.criteriaUnmet (filterField.getD ⟨none, none, none⟩) = true
      · simp [Cron.fetch_filter_iteration, Cron.spec_retry_condition,
          Cron.criteriaUnmet] at hc ⊢
      · simp [Cron.fetch_filter_iteration, Cron.spec_retry_condition,
          Cron.criteriaUnmet] at hc ⊢
    · simp [Cron.fetch_filter_iteration, Cron.spec_retry_condition, hs]

/- ## Claim C8: extraction fallback order and failure outcome. -/

set_option maxRecDepth 40000 in
/-- C8 counterexample.  The primary method yields text of exactly 100
characters — not *shorter than* the 100-character minimum — yet the code
falls back (its acceptance test is strictly `> 100`) and returns the
trafilatura text instead of the primary text. -/
theorem c8_boundary_100_chars_falls_back :
    (Py.strip "aaaaaaaaaaaaaaaaaaaaaaaaaaaaaaaaaaaaaaaaaaaaaaaaaaaaaaaaaaaaaaaaaaaaaaaaaaaaaaaaaaaaaaaaaaaaaaaaaaaa").length = 100 ∧
    NewsFilter.extract_article_text (.text "aaaaaaaaaaaaaaaaaaaaaaaaaaaaaaaaaaaaaaaaaaaaaaaaaaaaaaaaaaaaaaaaaaaaaaaaaaaaaaaaaaaaaaaaaaaaaaaaaaaa")
        (.resp 200 (some "bbbbbbbbbbbbbbbbbbbbbbbbbbbbbbbbbbbbbbbbbbbbbbbbbbbbbbbbbbbbbbbbbbbbbbbbbbbbbbbbbbbbbbbbbbbbbbbbbbbbbbbbbbbbbbbbbbbbbbbb")) = "bbbbbbbbbbbbbbbbbbbbbbbbbbbbbbbbbbbbbbbbbbbbbbbbbbbbbbbbbbbbbbbbbbbbbbbbbbbbbbbbbbbbbbbbbbbbbbbbbbbbbbbbbbbbbbbbbbbbbbbb" ∧
    ("bbbbbbbbbbbbbbbbbbbbbbbbbbbbbbbbbbbbbbbbbbbbbbbbbbbbbbbbbbbbbbbbbbbbbbbbbbbbbbbbbbbbbbbbbbbbbbbbbbbbbbbbbbbbbbbbbbbbbbbb" : String) ≠ "aaaaaaaaaaaaaaaaaaaaaaaaaaaaaaaaaaaaaaaaaaaaaaaaaaaaaaaaaaaaaaaaaaaaaaaaaaaaaaaaaaaaaaaaaaaaaaaaaaaa" := by
  decide

/-- C8 as amended.  Extraction uses the primary method's stripped text when
it is non-empty and strictly longer than 100 characters; it falls back to the
trafilatura method exactly when the primary raises or yields text of at most
100 characters after stripping; and when both methods fail (empty overall
result) the endpoint surfaces the extraction-failure outcome, HTTP 400 with
the extraction error detail. -/
theorem c8_extraction_fallback_policy :
    (∀ (t : String) (fb : NewsFilter.FallbackRes),
      (Py.truthy t = true ∧ (Py.strip t).length > 100 →
        NewsFilter.extract_article_text (.text t) fb = Py.strip t) ∧
      (Py.truthy t = false ∨ (Py.strip t).length ≤ 100 →
        NewsFilter.extract_article_text (.text t) fb = NewsFilter.fallbackText fb)) ∧
    (∀ fb : NewsFilter.FallbackRes,
      NewsFilter.extract_article_text .raised fb = NewsFilter.fallbackText fb) ∧
    (∀ (w : NewsFilter.FilterWorld) (nd : NewsFilter.NewsRow)
       (rest : List NewsFilter.NewsRow) (primary : NewsFilter.PrimaryRes)
       (fb : NewsFilter.FallbackRes),
      w.fetchResp = .ok (nd :: rest) →
      Py.truthy (Py.strip nd.title) = true →
      Py.truthy (Py.strip nd.url) = true →
      w.extractedText = NewsFilter.extract_article_text primary fb →
      NewsFilter.extract_article_text primary fb = "" →
      (NewsFilter.filter_endpoint w).1 =
        .error (.http 400 "Não foi possível extrair texto da URL")) := by
  refine ⟨?_, fun fb => rfl, ?_⟩
  · intro t fb
    constructor
    · rintro ⟨h1, h2⟩
      simp [NewsFilter.extract_article_text, h1, h2]
    · rintro (h | h)
      · simp [NewsFilter.extract_article_text, h]
      · simp [NewsFilter.extract_article_text, Nat.not_lt.mpr h]
  · intro w nd rest primary fb hfetch ht hu hext h0
    have hx : w.extractedText = "" := by rw [hext, h0]
    have hempty : Py.truthy (Py.strip "") = false := rfl
    unfold NewsFilter.filter_endpoint
    rw [hfetch]
    simp only [ht, hu, hx, hempty, Bool.not_true, Bool.not_false, Bool.or_self,
      Bool.false_or, Bool.or_false, if_false, if_true]
    rfl

/- ## Claim C9: no stage invocation begins after stop_all returns. -/

/-- Resuming a cancelled-or-finished task begins no stage invocation and
leaves the task cancelled-or-finished: `CancelledError` is delivered at the
suspension point, and the pollers catch only `Exception`, which it is not, so
the coroutine ends without running another loop iteration. -/
theorem resumeTask_stopped (flags : List (String × Bool)) (t : Cron.TaskRec)
    (b : Bool) (h : t.cancelled = true ∨ t.done = true) :
    (Cron.resumeTask flags t b).2 = 0 ∧
    ((Cron.resumeTask flags t b).1.cancelled = true ∨
     (Cron.resumeTask flags t b).1.done = true) := by
  unfold Cron.resumeTask
  by_cases hd : t.done = true
  · simp [hd]
  · rcases h with hc | hcontra
    · simp [hd, hc]
    · exact absurd hcontra hd

/-- In a world where every task is cancelled or finished, no schedule can
begin a stage invocation. -/
theorem allStopped_runSched (w : Cron.RunWorld) (hw : Cron.allStopped w) :
    ∀ sched : List (Nat × Bool), Cron.runSched w sched = 0 := by
  intro sched
  induction sched generalizing w with
  | nil => rfl
  | cons ib rest ih =>
    obtain ⟨i, b⟩ := ib
    show (Cron.stepWorld w i b).2 + Cron.runSched (Cron.stepWorld w i b).1 rest = 0
    unfold Cron.stepWorld
    cases hgi : w.pool[i]? with
    | none => simpa using ih w hw
    | some t =>
      have hmem : t ∈ w.pool := by
        have h2 := List.getElem?_eq_some.mp hgi
        obtain ⟨hlt, heq⟩ := h2
        exact heq ▸ List.getElem_mem _
      have hstop := resumeTask_stopped w.flags t b (hw t hmem)
      dsimp only
      rw [hstop.1, Nat.zero_add]
      apply ih
      intro u hu
      rcases List.mem_or_eq_of_mem_set hu with hu' | rfl
      · exact hw u hu'
      · exact hstop.2

/-- C9.  After a successful `stop_cronjob` — given that the registry covered
every unfinished task of the pool, which `start_cronjob` guarantees — every
task is cancelled, so whatever the cooperative scheduler does next, no fetch,
filter or analyze invocation ever begins again. -/
theorem c9_no_invocation_after_stop (s s' : Cron.CronState)
    (hstop : Cron.stop_cronjob s = .ok s')
    (hcov : ∀ t ∈ s.pool, t.done = false → t.id ∈ s.tasks.map Prod.snd) :
    ∀ sched : List (Nat × Bool), Cron.runSched (Cron.runWorldOf s') sched = 0 := by
  apply allStopped_runSched
  obtain ⟨tasks, flags, pool, nid⟩ := s
  cases tasks with
  | nil => exact absurd hstop (by simp [Cron.stop_cronjob])
  | cons a l =>
    cases hstop
    intro t ht
    simp only [Cron.runWorldOf] at ht
    unfold Cron.cancelTasks at ht
    rw [List.mem_map] at ht
    obtain ⟨orig, horig, rfl⟩ := ht
    by_cases hid : orig.id ∈ ((a :: l).map Prod.snd)
    · rw [if_pos hid]
      exact Or.inl rfl
    · rw [if_neg hid]
      cases hdone : orig.done with
      | true => exact Or.inr rfl
      | false => exact absurd (hcov orig horig hdone) hid

/-- Witness for C9: stopping the concrete started state, then running an
arbitrary concrete schedule, begins zero stage invocations. -/
theorem c9_no_invocation_after_stop_witness :
    Cron.runSched (Cron.runWorldOf ⟨[], [],
      [⟨0, "news", .start, true, false⟩, ⟨1, "filter", .start, true, false⟩,
       ⟨2, "analyze", .start, true, false⟩], 3⟩)
      [(0, true), (1, false), (2, true), (0, false), (1, true), (5, true)] = 0 :=
  c9_no_invocation_after_stop
    ⟨[("news", 0), ("filter", 1), ("analyze", 2)],
     [("news", false), ("filter", false), ("analyze", false)],
     [⟨0, "news", .start, false, false⟩, ⟨1, "filter", .start, false, false⟩,
      ⟨2, "analyze", .start, false, false⟩], 3⟩
    ⟨[], [],
     [⟨0, "news", .start, true, false⟩, ⟨1, "filter", .start, true, false⟩,
      ⟨2, "analyze", .start, true, false⟩], 3⟩
    rfl (by decide)
    [(0, true), (1, false), (2, true), (0, false), (1, true), (5, true)]

/- ## Claim C10: an item that causes a failure is still consumed. -/

/-- The handler marks the selected id used whenever it is truthy. -/
theorem filterHandler_marks_used (nid : String) (e : NewsFilter.PyExc)
    (h : Py.truthy nid = true) :
    nid ∈ (NewsFilter.filterHandler (some nid) e).2.used := by
  unfold NewsFilter.filterHandler
  simp [h]

/-- C10.  Once an item with a non-empty external id has been selected, every
way the invocation can end — the empty-title/URL error, the extraction
failure, the LLM classification error, the insert error, and also the two
success paths — leaves the item marked `used=true`; in particular an item
that makes the stage fail is consumed and never retried. -/
theorem c10_failed_item_consumed (w : NewsFilter.FilterWorld)
    (nd : NewsFilter.NewsRow) (rest : List NewsFilter.NewsRow)
    (e : NewsFilter.PyExc)
    (hfetch : w.fetchResp = .ok (nd :: rest))
    (hid : Py.truthy nd.news_id = true)
    (herr : (NewsFilter.filter_endpoint w).1 = .error e) :
    nd.news_id ∈ (NewsFilter.filter_endpoint w).2.used := by
  clear herr
  obtain ⟨fr, xt, llm, ins⟩ := w
  dsimp only at hfetch
  subst hfetch
  unfold NewsFilter.filter_endpoint
  dsimp only
  by_cases h1 : (!(Py.truthy (Py.strip nd.title)) || !(Py.truthy (Py.strip nd.url))) = true
  · rw [if_pos h1]
    exact filterHandler_marks_used _ _ hid
  · rw [if_neg h1]
    by_cases h2 : (!(Py.truthy (Py.strip xt))) = true
    · rw [if_pos h2]
      exact filterHandler_marks_used _ _ hid
    · rw [if_neg h2]
      cases hllm : llm with
      | exc m => exact filterHandler_marks_used _ _ hid
      | ok filters =>
        dsimp only
        by_cases hsk : (NewsFilter.should_skip_insertion filters).1 = true
        · rw [if_pos hsk]
          simp
        · rw [if_neg hsk]
          by_cases hins : ins = true
          · rw [if_pos hins]
            simp
          · rw [if_neg hins]
            exact filterHandler_marks_used _ _ hid

/-- Witness for C10: a selected item with id "idX" and an empty title makes
the stage fail with 400, and "idX" is still marked used. -/
theorem c10_failed_item_consumed_witness :
    "idX" ∈ (NewsFilter.filter_endpoint
      ⟨.ok [⟨"idX", "", "https://u", "img"⟩], "text",
       .ok ⟨none, none, none, none⟩, true⟩).2.used :=
  c10_failed_item_consumed
    ⟨.ok [⟨"idX", "", "https://u", "img"⟩], "text",
     .ok ⟨none, none, none, none⟩, true⟩
    ⟨"idX", "", "https://u", "img"⟩ []
    (.http 400 "Title e URL não podem estar vazios")
    rfl (by decide) rfl
